import Mathlib

/-!
The yquotes_exporter: session-aware price resolution and scrape collection.

A shallow embedding of `main.go`.

* Go `float64` values are IEEE-754 binary64 bit patterns (`Float64`), with the
  comparison `==` and the addition `+` (round to nearest, ties to even) spelled
  out on the bits.
* Go `string` values are Lean strings.
* `transformResponseQuote` and `transformResponseQuotes` are pure functions.
* `GetQuotes` and `collector.Collect` act on the outside world (the upstream
  HTTP endpoint, the process-wide counters, the metric channel); the outside
  world is an explicit environment and an explicit state.
-/

namespace YQuotes

/-! ## Go `float64` -/

/-- An IEEE-754 binary64 value, given by its 64 bits: one sign bit, eleven
exponent bits, fifty-two fraction bits. -/
structure Float64 where
  bits : Nat
  lt : bits < 2 ^ 64
deriving DecidableEq

namespace Float64

/-- The value with the given bit pattern (taken modulo `2 ^ 64`). -/
def ofBits (n : Nat) : Float64 := ⟨n % 2 ^ 64, Nat.mod_lt n (by decide)⟩

/-- The sign bit. -/
def sign (x : Float64) : Nat := x.bits / 2 ^ 63

/-- The biased exponent field. -/
def expField (x : Float64) : Nat := (x.bits / 2 ^ 52) % 2 ^ 11

/-- The fraction field. -/
def frac (x : Float64) : Nat := x.bits % 2 ^ 52

/-- Not-a-number: exponent field all ones, fraction non-zero. -/
def isNaN (x : Float64) : Bool := x.expField == 2047 && x.frac != 0

/-- Infinity: exponent field all ones, fraction zero. -/
def isInf (x : Float64) : Bool := x.expField == 2047 && x.frac == 0

/-- The Go constant `0.0`. -/
def zero : Float64 := ofBits 0

/-- The quiet NaN with an empty payload. -/
def nan : Float64 := ofBits 0x7FF8000000000000

/-- Go `x == y` on `float64`: false as soon as one side is NaN, true for the
two zeros `+0` and `-0`, otherwise equality of the bits. -/
def eq (x y : Float64) : Bool :=
  !x.isNaN && !y.isNaN &&
    (x.bits == y.bits || (x.bits % 2 ^ 63 == 0 && y.bits % 2 ^ 63 == 0))

/-- Go `x != y` on `float64`. -/
def ne (x y : Float64) : Bool := !(eq x y)

/-- The magnitude of a finite value, in units of `2 ^ (-1074)`. -/
def magnitude (x : Float64) : Nat :=
  if x.expField = 0 then x.frac else (2 ^ 52 + x.frac) <<< (x.expField - 1)

/-- The position of the highest set bit of `n` (for `0 < n < 2 ^ 4096`), found
by bisection. -/
def log2 (n : Nat) : Nat :=
  [2048, 1024, 512, 256, 128, 64, 32, 16, 8, 4, 2, 1].foldl
    (fun acc i => if n >>> (acc + i) = 0 then acc else acc + i) 0

/-- The low 63 bits (exponent and fraction fields) of the binary64 value nearest
to `n * 2 ^ (-1074)`, ties to even, overflowing to infinity. -/
def roundMag (n : Nat) : Nat :=
  if n < 2 ^ 53 then n
  else
    let k := log2 n - 52
    let q := n >>> k
    let rem := n - (q <<< k)
    let half := 1 <<< (k - 1)
    let q1 := if half < rem ∨ (rem = half ∧ q % 2 = 1) then q + 1 else q
    let m := k * 2 ^ 52 + q1
    if 2047 * 2 ^ 52 ≤ m then 2047 * 2 ^ 52 else m

/-- Go `x + y` on `float64`: the exact sum rounded to nearest, ties to even.
A NaN operand, or the sum of two opposite infinities, gives a quiet NaN (its
payload, which Go leaves to the hardware, is taken empty); an exact zero sum of
two operands of opposite sign is `+0`. -/
def add (x y : Float64) : Float64 :=
  if x.isNaN || y.isNaN then nan
  else if x.isInf then (if y.isInf && x.sign != y.sign then nan else x)
  else if y.isInf then y
  else if x.sign = y.sign then
    ofBits (x.sign * 2 ^ 63 + roundMag (x.magnitude + y.magnitude))
  else if y.magnitude ≤ x.magnitude then
    (if x.magnitude = y.magnitude then zero
     else ofBits (x.sign * 2 ^ 63 + roundMag (x.magnitude - y.magnitude)))
  else ofBits (y.sign * 2 ^ 63 + roundMag (y.magnitude - x.magnitude))

end Float64

/-! ## The data model -/

/-- The raw per-symbol record decoded from the upstream JSON (`type ResponseQuote`). -/
structure ResponseQuote where
  ShortName : String
  Symbol : String
  MarketState : String
  Currency : String
  ExchangeName : String
  ExchangeDelay : Float64
  RegularMarketChange : Float64
  RegularMarketChangePercent : Float64
  RegularMarketPrice : Float64
  RegularMarketPreviousClose : Float64
  RegularMarketOpen : Float64
  RegularMarketDayRange : String
  RegularMarketDayHigh : Float64
  RegularMarketDayLow : Float64
  RegularMarketVolume : Float64
  PostMarketChange : Float64
  PostMarketChangePercent : Float64
  PostMarketPrice : Float64
  PreMarketChange : Float64
  PreMarketChangePercent : Float64
  PreMarketPrice : Float64
  FiftyTwoWeekHigh : Float64
  FiftyTwoWeekLow : Float64
  QuoteType : String
  MarketCap : Float64
deriving DecidableEq

/-- The resolved quote (`type Quote`): the embedded source record and the
derived fields. The Go struct embeds `ResponseQuote` anonymously; the embedded
record is the field `ResponseQuote` here, and `Symbol` is the struct's own
field (it shadows the promoted one). -/
structure Quote where
  ResponseQuote : ResponseQuote
  Price : Float64
  PricePrevClose : Float64
  PriceOpen : Float64
  PriceDayHigh : Float64
  PriceDayLow : Float64
  Change : Float64
  ChangePercent : Float64
  IsActive : Bool
  IsRegularTradingSession : Bool
  IsVariablePrecision : Bool
  CurrencyConverted : String
  Name : String
  Symbol : String
deriving DecidableEq

/-! ## The session price resolver -/

/-- The resolver `transformResponseQuote`: seven returns, tried in the order of
the source. -/
def transformResponseQuote (responseQuote : ResponseQuote) : Quote :=
  if responseQuote.MarketState == "REGULAR" then
    { ResponseQuote := responseQuote
      Price := responseQuote.RegularMarketPrice
      PricePrevClose := responseQuote.RegularMarketPreviousClose
      PriceOpen := responseQuote.RegularMarketOpen
      PriceDayHigh := responseQuote.RegularMarketDayHigh
      PriceDayLow := responseQuote.RegularMarketDayLow
      Change := responseQuote.RegularMarketChange
      ChangePercent := responseQuote.RegularMarketChangePercent
      IsActive := true
      IsRegularTradingSession := true
      IsVariablePrecision := false
      CurrencyConverted := "USD"
      Name := responseQuote.ShortName
      Symbol := responseQuote.Symbol }
  else if responseQuote.MarketState == "POST"
      && Float64.eq responseQuote.PostMarketPrice Float64.zero then
    { ResponseQuote := responseQuote
      Price := responseQuote.RegularMarketPrice
      PricePrevClose := responseQuote.RegularMarketPreviousClose
      PriceOpen := responseQuote.RegularMarketOpen
      PriceDayHigh := responseQuote.RegularMarketDayHigh
      PriceDayLow := responseQuote.RegularMarketDayLow
      Change := responseQuote.RegularMarketChange
      ChangePercent := responseQuote.RegularMarketChangePercent
      IsActive := true
      IsRegularTradingSession := false
      IsVariablePrecision := false
      CurrencyConverted := "USD"
      Name := responseQuote.ShortName
      Symbol := responseQuote.Symbol }
  else if responseQuote.MarketState == "PRE"
      && Float64.eq responseQuote.PreMarketPrice Float64.zero then
    { ResponseQuote := responseQuote
      Price := responseQuote.RegularMarketPrice
      PricePrevClose := responseQuote.RegularMarketPreviousClose
      PriceOpen := responseQuote.RegularMarketOpen
      PriceDayHigh := responseQuote.RegularMarketDayHigh
      PriceDayLow := responseQuote.RegularMarketDayLow
      Change := responseQuote.RegularMarketChange
      ChangePercent := responseQuote.RegularMarketChangePercent
      IsActive := false
      IsRegularTradingSession := false
      IsVariablePrecision := false
      CurrencyConverted := "USD"
      Name := responseQuote.ShortName
      Symbol := responseQuote.Symbol }
  else if responseQuote.MarketState == "POST" then
    { ResponseQuote := responseQuote
      Price := responseQuote.PostMarketPrice
      PricePrevClose := responseQuote.RegularMarketPreviousClose
      PriceOpen := responseQuote.RegularMarketOpen
      PriceDayHigh := responseQuote.RegularMarketDayHigh
      PriceDayLow := responseQuote.RegularMarketDayLow
      Change := Float64.add responseQuote.PostMarketChange responseQuote.RegularMarketChange
      ChangePercent :=
        Float64.add responseQuote.PostMarketChangePercent responseQuote.RegularMarketChangePercent
      IsActive := true
      IsRegularTradingSession := false
      IsVariablePrecision := false
      CurrencyConverted := "USD"
      Name := responseQuote.ShortName
      Symbol := responseQuote.Symbol }
  else if responseQuote.MarketState == "PRE" then
    { ResponseQuote := responseQuote
      Price := responseQuote.PreMarketPrice
      PricePrevClose := responseQuote.RegularMarketPreviousClose
      PriceOpen := responseQuote.RegularMarketOpen
      PriceDayHigh := responseQuote.RegularMarketDayHigh
      PriceDayLow := responseQuote.RegularMarketDayLow
      Change := responseQuote.PreMarketChange
      ChangePercent := responseQuote.PreMarketChangePercent
      IsActive := true
      IsRegularTradingSession := false
      IsVariablePrecision := false
      CurrencyConverted := "USD"
      Name := responseQuote.ShortName
      Symbol := responseQuote.Symbol }
  else if Float64.ne responseQuote.PostMarketPrice Float64.zero then
    { ResponseQuote := responseQuote
      Price := responseQuote.PostMarketPrice
      PricePrevClose := responseQuote.RegularMarketPreviousClose
      PriceOpen := responseQuote.RegularMarketOpen
      PriceDayHigh := responseQuote.RegularMarketDayHigh
      PriceDayLow := responseQuote.RegularMarketDayLow
      Change := Float64.add responseQuote.PostMarketChange responseQuote.RegularMarketChange
      ChangePercent :=
        Float64.add responseQuote.PostMarketChangePercent responseQuote.RegularMarketChangePercent
      IsActive := false
      IsRegularTradingSession := false
      IsVariablePrecision := false
      CurrencyConverted := "USD"
      Name := responseQuote.ShortName
      Symbol := responseQuote.Symbol }
  else
    { ResponseQuote := responseQuote
      Price := responseQuote.RegularMarketPrice
      PricePrevClose := responseQuote.RegularMarketPreviousClose
      PriceOpen := responseQuote.RegularMarketOpen
      PriceDayHigh := responseQuote.RegularMarketDayHigh
      PriceDayLow := responseQuote.RegularMarketDayLow
      Change := responseQuote.RegularMarketChange
      ChangePercent := responseQuote.RegularMarketChangePercent
      IsActive := false
      IsRegularTradingSession := false
      IsVariablePrecision := false
      CurrencyConverted := "USD"
      Name := responseQuote.ShortName
      Symbol := responseQuote.Symbol }

/-! ## The quote fetcher -/

/-- The loop of `transformResponseQuotes`: `quotes` starts empty and every
record's resolved quote is appended to it, in the order of the slice. -/
def transformResponseQuotes (responseQuotes : List ResponseQuote) : List Quote :=
  responseQuotes.foldl
    (fun quotes responseQuote => quotes ++ [transformResponseQuote responseQuote]) []

/-- The member `QuoteResponse` of the envelope: the decoded records (`result`)
and the `error` member, which the program decodes and never reads (kept as its
raw JSON text, `none` for `null`). -/
structure QuoteResponse where
  Quotes : List ResponseQuote
  Error : Option String
deriving DecidableEq

/-- The JSON envelope `type Response`. -/
structure Response where
  QuoteResponse : QuoteResponse
deriving DecidableEq

/-- The Go zero value `Response{}` handed to `SetResult`: no records. -/
def Response.zero : Response := { QuoteResponse := { Quotes := [], Error := none } }

/-- What `client.R().SetResult(Response{}).Get(url)` hands back.
* `response err result`: a response `res`; `err` tells whether `Get` also
  returned an error (transport failure, undecodable body), which the program
  drops (`res, _ :=`); `result` is the envelope `res.Result()`, holding what the
  client decoded into it and left at `Response{}` when it decoded nothing.
* `noResponse`: no response at all (`res` is nil), the request was never sent. -/
inductive GetOutcome where
  | response (err : Bool) (result : Response)
  | noResponse
deriving DecidableEq

/-- How a Go function call ends. -/
inductive Exit where
  | returned
  | panicked
deriving DecidableEq

/-- The label-name list and fixed data of a metric (`prometheus.NewDesc` with no
constant labels). -/
structure Desc where
  fqName : String
  help : String
  variableLabels : List String
deriving DecidableEq

/-- The value types of `prometheus`. -/
inductive ValueType where
  | CounterValue
  | GaugeValue
  | UntypedValue
deriving DecidableEq

/-- A constant metric sample (`prometheus.MustNewConstMetric`). -/
structure Metric where
  desc : Desc
  valueType : ValueType
  value : Float64
  labelValues : List String
deriving DecidableEq

/-- What surrounds the program during one scrape: the upstream endpoint seen
through the HTTP client (request URL to outcome), the wall-clock seconds
`time.Since(start).Seconds()` measured around the fetch, and whether `glog.V(2)`
is on. -/
structure Env where
  get : String → GetOutcome
  elapsed : Float64
  verbose : Bool

/-- The state the program acts on: the process-wide counter vectors
`queryCount` and `errorCount` (label value to count), the observations of the
summary `queryDuration`, the lines written through `glog`, the URLs handed to
`Get` (in order), and the samples sent on the channel `ch` (in order). -/
structure World where
  queryCount : String → Nat
  errorCount : String → Nat
  queryDuration : List Float64
  log : List String
  gets : List String
  ch : List Metric

/-- The URL built by `fmt.Sprintf` in `GetQuotes`. -/
def quoteURL (symbolsString : String) : String :=
  "https://query1.finance.yahoo.com/v7/finance/quote?lang=en-US&region=US&corsDomain=finance.yahoo.com&symbols="
    ++ symbolsString

/-- The fetcher `GetQuotes`: joins the symbols with commas, builds the URL, calls
`Get` on it once, and resolves the records found in the result envelope.
With no response, `res.Result()` dereferences nil: the call panics (`none`). -/
def GetQuotes (env : Env) (symbols : List String) (w : World) :
    Option (List Quote) × World :=
  let symbolsString := String.intercalate "," symbols
  let url := quoteURL symbolsString
  let w1 := { w with gets := w.gets ++ [url] }
  match env.get url with
  | GetOutcome.response _ result =>
      (some (transformResponseQuotes result.QuoteResponse.Quotes), w1)
  | GetOutcome.noResponse => (none, w1)

/-! ## The scrape collector -/

/-- The requested symbols (`type collector []string`). -/
abbrev collector := List String

/-- `WithLabelValues(s).Inc()` on a counter vector. -/
def incCounter (counter : String → Nat) (s : String) : String → Nat :=
  fun t => if t = s then counter t + 1 else counter t

/-- One round of the first loop of `Collect`: an empty symbol is skipped;
otherwise its query counter is incremented, a line is logged when `glog.V(2)` is
on, and the symbol is appended to `stocks`. -/
def Collect.countStep (env : Env) (st : List String × World) (s : String) :
    List String × World :=
  if s == "" then st
  else
    let w1 := { st.2 with queryCount := incCounter st.2.queryCount s }
    let w2 := if env.verbose then { w1 with log := w1.log ++ ["looking up " ++ s ++ "\n"] }
              else w1
    (st.1 ++ [s], w2)

/-- The label names `ls` of the three gauges. -/
def Collect.ls : List String := ["symbol", "name", "active"]

/-- The label values `lvs` of the three gauges of one quote
(`strconv.FormatBool` gives "true" or "false"). -/
def Collect.lvs (singleStock : Quote) : List String :=
  [singleStock.Symbol, singleStock.Name, if singleStock.IsActive then "true" else "false"]

/-- The three samples sent for one quote, in the order of the sends. -/
def Collect.samples (singleStock : Quote) : List Metric :=
  [ { desc := { fqName := "yquotes_last_price_dollars", help := "Last price paid."
                variableLabels := Collect.ls }
      valueType := ValueType.GaugeValue
      value := singleStock.Price
      labelValues := Collect.lvs singleStock },
    { desc := { fqName := "yquotes_opening_price_dollars", help := "Opening price."
                variableLabels := Collect.ls }
      valueType := ValueType.GaugeValue
      value := singleStock.PriceOpen
      labelValues := Collect.lvs singleStock },
    { desc := { fqName := "yquotes_previous_close_price_dollars"
                help := "Previous close price."
                variableLabels := Collect.ls }
      valueType := ValueType.GaugeValue
      value := singleStock.PricePrevClose
      labelValues := Collect.lvs singleStock } ]

/-- One round of the second loop of `Collect`: three sends on `ch`. -/
def Collect.emitStep (w : World) (singleStock : Quote) : World :=
  { w with ch := w.ch ++ Collect.samples singleStock }

/-- The method `collector.Collect`: the counting loop over the requested
symbols, the fetch of the kept symbols, the observation of the elapsed time,
the emitting loop over the returned quotes. A panic of the fetch ends the call
on the spot. -/
def Collect (env : Env) (c : collector) (w : World) : Exit × World :=
  let st := c.foldl (Collect.countStep env) ([], w)
  let stocks := st.1
  match GetQuotes env stocks st.2 with
  | (none, w2) => (Exit.panicked, w2)
  | (some quoteList, w2) =>
      let w3 := { w2 with queryDuration := w2.queryDuration ++ [env.elapsed] }
      (Exit.returned, quoteList.foldl Collect.emitStep w3)

/-! ## Concrete records -/

/-- The Go zero value `ResponseQuote{}`: empty strings and `0.0` everywhere. -/
def zeroRecord : ResponseQuote :=
  { ShortName := "", Symbol := "", MarketState := "", Currency := "", ExchangeName := ""
    ExchangeDelay := Float64.zero
    RegularMarketChange := Float64.zero
    RegularMarketChangePercent := Float64.zero
    RegularMarketPrice := Float64.zero
    RegularMarketPreviousClose := Float64.zero
    RegularMarketOpen := Float64.zero
    RegularMarketDayRange := ""
    RegularMarketDayHigh := Float64.zero
    RegularMarketDayLow := Float64.zero
    RegularMarketVolume := Float64.zero
    PostMarketChange := Float64.zero
    PostMarketChangePercent := Float64.zero
    PostMarketPrice := Float64.zero
    PreMarketChange := Float64.zero
    PreMarketChangePercent := Float64.zero
    PreMarketPrice := Float64.zero
    FiftyTwoWeekHigh := Float64.zero
    FiftyTwoWeekLow := Float64.zero
    QuoteType := ""
    MarketCap := Float64.zero }

/-- The binary64 value `0.25`. -/
def f0_25 : Float64 := Float64.ofBits 0x3FD0000000000000
/-- The binary64 value `0.5`. -/
def f0_5 : Float64 := Float64.ofBits 0x3FE0000000000000
/-- The binary64 value `1.0`. -/
def f1_0 : Float64 := Float64.ofBits 0x3FF0000000000000
/-- The binary64 value nearest to `1.2`. -/
def f1_2 : Float64 := Float64.ofBits 0x3FF3333333333333
/-- The binary64 value `1.25`. -/
def f1_25 : Float64 := Float64.ofBits 0x3FF4000000000000
/-- The binary64 value `1.5`. -/
def f1_5 : Float64 := Float64.ofBits 0x3FF8000000000000
/-- The binary64 value `2.0`. -/
def f2_0 : Float64 := Float64.ofBits 0x4000000000000000
/-- The binary64 value `2.5`. -/
def f2_5 : Float64 := Float64.ofBits 0x4004000000000000
/-- The binary64 value `3.0`. -/
def f3_0 : Float64 := Float64.ofBits 0x4008000000000000
/-- The binary64 value `47.5`. -/
def f47_5 : Float64 := Float64.ofBits 0x4047C00000000000
/-- The binary64 value `48.0`. -/
def f48_0 : Float64 := Float64.ofBits 0x4048000000000000
/-- The binary64 value `49.0`. -/
def f49_0 : Float64 := Float64.ofBits 0x4048800000000000
/-- The binary64 value `50.0`. -/
def f50_0 : Float64 := Float64.ofBits 0x4049000000000000
/-- The binary64 value `51.0`. -/
def f51_0 : Float64 := Float64.ofBits 0x4049800000000000
/-- The binary64 value `52.25`. -/
def f52_25 : Float64 := Float64.ofBits 0x404A200000000000
/-- The binary64 value `101.5`. -/
def f101_5 : Float64 := Float64.ofBits 0x4059600000000000

/-- A post-market record with a post-market trade:
`{marketState: "POST", postMarketPrice: 51.0, postMarketChange: 0.5,
regularMarketChange: 1.0, postMarketChangePercent: 0.25,
regularMarketChangePercent: 1.25, regularMarketPrice: 50.0}`. -/
def recPostTraded : ResponseQuote :=
  { zeroRecord with
    Symbol := "AAA", ShortName := "Aaa Inc.", MarketState := "POST"
    PostMarketPrice := f51_0, PostMarketChange := f0_5, RegularMarketChange := f1_0
    PostMarketChangePercent := f0_25, RegularMarketChangePercent := f1_25
    RegularMarketPrice := f50_0 }

/-- A regular-session record whose pre-market and post-market fields are set too:
`{marketState: "REGULAR", regularMarketPrice: 101.5, regularMarketChange: 1.2,
preMarketPrice: 49.0, postMarketPrice: 51.0, postMarketChange: 0.5}`. -/
def recRegular : ResponseQuote :=
  { zeroRecord with
    Symbol := "BBB", ShortName := "Bbb Inc.", MarketState := "REGULAR"
    RegularMarketPrice := f101_5, RegularMarketChange := f1_2
    RegularMarketChangePercent := f1_25
    PreMarketPrice := f49_0, PostMarketPrice := f51_0, PostMarketChange := f0_5
    PreMarketChange := f2_0 }

/-- A post-market record without a post-market trade but with stale post-market
changes: `{marketState: "POST", postMarketPrice: 0, regularMarketPrice: 50.0,
regularMarketChange: 1.0, postMarketChange: 0.5, postMarketChangePercent: 0.25}`. -/
def recPostUntraded : ResponseQuote :=
  { zeroRecord with
    Symbol := "CCC", ShortName := "Ccc Inc.", MarketState := "POST"
    RegularMarketPrice := f50_0, RegularMarketChange := f1_0
    RegularMarketChangePercent := f2_0
    PostMarketChange := f0_5, PostMarketChangePercent := f0_25 }

/-- A closed-market record without a post-market trade:
`{marketState: "CLOSED", postMarketPrice: 0, regularMarketPrice: 49.0,
regularMarketChange: 1.0}`. -/
def recClosed : ResponseQuote :=
  { zeroRecord with
    Symbol := "DDD", ShortName := "Ddd Inc.", MarketState := "CLOSED"
    RegularMarketPrice := f49_0, RegularMarketChange := f1_0
    RegularMarketChangePercent := f2_0, PostMarketChange := f0_5 }

/-- A closed-market record with a post-market trade:
`{marketState: "CLOSED", postMarketPrice: 52.25, postMarketChange: 0.5,
regularMarketChange: 2.0, postMarketChangePercent: 0.25,
regularMarketChangePercent: 1.25, regularMarketPrice: 49.0}`. -/
def recClosedTraded : ResponseQuote :=
  { zeroRecord with
    Symbol := "EEE", ShortName := "Eee Inc.", MarketState := "CLOSED"
    PostMarketPrice := f52_25, PostMarketChange := f0_5, RegularMarketChange := f2_0
    PostMarketChangePercent := f0_25, RegularMarketChangePercent := f1_25
    RegularMarketPrice := f49_0 }

/-- A pre-market record without a pre-market trade, with stale pre-market
changes and a post-market price left from the day before:
`{marketState: "PRE", preMarketPrice: 0, preMarketChange: 0.5,
preMarketChangePercent: 0.25, postMarketPrice: 51.0, postMarketChange: 3.0,
regularMarketPrice: 48.0, regularMarketChange: 1.0, regularMarketChangePercent: 2.0}`. -/
def recPreUntraded : ResponseQuote :=
  { zeroRecord with
    Symbol := "FFF", ShortName := "Fff Inc.", MarketState := "PRE"
    PreMarketChange := f0_5, PreMarketChangePercent := f0_25
    PostMarketPrice := f51_0, PostMarketChange := f3_0
    RegularMarketPrice := f48_0, RegularMarketChange := f1_0
    RegularMarketChangePercent := f2_0 }

/-- A pre-market record with a pre-market trade:
`{marketState: "PRE", preMarketPrice: 47.5, preMarketChange: 0.5,
preMarketChangePercent: 0.25, regularMarketPrice: 48.0, regularMarketChange: 1.0,
regularMarketChangePercent: 2.0}`. -/
def recPreTraded : ResponseQuote :=
  { zeroRecord with
    Symbol := "GGG", ShortName := "Ggg Inc.", MarketState := "PRE"
    PreMarketPrice := f47_5, PreMarketChange := f0_5, PreMarketChangePercent := f0_25
    RegularMarketPrice := f48_0, RegularMarketChange := f1_0
    RegularMarketChangePercent := f2_0 }

/-- A state before any scrape: counters at zero, nothing logged, requested or
sent. -/
def world0 : World :=
  { queryCount := fun _ => 0, errorCount := fun _ => 0, queryDuration := []
    log := [], gets := [], ch := [] }

/-- An upstream that answers every request with an envelope without records. -/
def envNoRecords : Env :=
  { get := fun _ => GetOutcome.response false Response.zero
    elapsed := f0_25, verbose := false }

/-- An upstream that answers every request, also one without symbols, with the
single record `recClosed`. -/
def envOneRecord : Env :=
  { get := fun _ =>
      GetOutcome.response false { QuoteResponse := { Quotes := [recClosed], Error := none } }
    elapsed := f0_25, verbose := false }

/-- An upstream that answers the request for "AAA,BBB" with the record of
"BBB" first and the record of "AAA" second, and any other request with no
record. -/
def envSwapped : Env :=
  { get := fun url =>
      if url = quoteURL "AAA,BBB" then
        GetOutcome.response false
          { QuoteResponse := { Quotes := [recRegular, recPostTraded], Error := none } }
      else GetOutcome.response false Response.zero
    elapsed := f0_25, verbose := false }

/-- The ordering in the words of the spec: whenever `i < j`, every sample
labelled with the `i`-th requested symbol is sent before every sample labelled
with the `j`-th requested symbol (the symbol is the first label value). -/
def EmittedInSymbolOrder (symbols : List String) (ch : List Metric) : Prop :=
  ∀ i j a b : Nat, ∀ ma mb : Metric, i < j → j < symbols.length →
    ch[a]? = some ma → ch[b]? = some mb →
    ma.labelValues.head? = symbols[i]? → mb.labelValues.head? = symbols[j]? → a < b

/-- An upstream whose every call fails in transport: `Get` returns an error and
a response whose envelope is still `Response{}`. -/
def envTransportFailure : Env :=
  { get := fun _ => GetOutcome.response true Response.zero
    elapsed := f0_25, verbose := true }

/-- A record whose state is spelled in lower case:
`{marketState: "regular", regularMarketPrice: 50.0, regularMarketChange: 1.0}`. -/
def recLowercase : ResponseQuote :=
  { zeroRecord with
    Symbol := "HHH", ShortName := "Hhh Inc.", MarketState := "regular"
    RegularMarketPrice := f50_0, RegularMarketChange := f1_0 }

/-- The three gauge samples of one record in the words of the spec: last
price, opening price, previous-close price, valued with the resolved price, the
record's regular-session open and its regular-session previous close, each
labelled with the record's symbol, its short name, and "true" or "false"
according to the resolved `IsActive`. -/
def recordSamples (r : ResponseQuote) : List Metric :=
  [ { desc := { fqName := "yquotes_last_price_dollars", help := "Last price paid."
                variableLabels := ["symbol", "name", "active"] }
      valueType := ValueType.GaugeValue
      value := (transformResponseQuote r).Price
      labelValues := [r.Symbol, r.ShortName,
        if (transformResponseQuote r).IsActive = true then "true" else "false"] },
    { desc := { fqName := "yquotes_opening_price_dollars", help := "Opening price."
                variableLabels := ["symbol", "name", "active"] }
      valueType := ValueType.GaugeValue
      value := r.RegularMarketOpen
      labelValues := [r.Symbol, r.ShortName,
        if (transformResponseQuote r).IsActive = true then "true" else "false"] },
    { desc := { fqName := "yquotes_previous_close_price_dollars"
                help := "Previous close price."
                variableLabels := ["symbol", "name", "active"] }
      valueType := ValueType.GaugeValue
      value := r.RegularMarketPreviousClose
      labelValues := [r.Symbol, r.ShortName,
        if (transformResponseQuote r).IsActive = true then "true" else "false"] } ]

/-! ## Checks of the binary64 model -/

/-- The sum `0.5 + 1.0` is exactly `1.5`. -/
theorem float64_add_exact : Float64.add f0_5 f1_0 = f1_5 := by decide

/-- The sum `0.1 + 0.2` rounds to `0.30000000000000004`. -/
theorem float64_add_rounds :
    Float64.add (Float64.ofBits 0x3FB999999999999A) (Float64.ofBits 0x3FC999999999999A)
      = Float64.ofBits 0x3FD3333333333334 := by decide

/-- The largest finite value added to itself overflows to `+Inf`. -/
theorem float64_add_overflows :
    Float64.add (Float64.ofBits 0x7FEFFFFFFFFFFFFF) (Float64.ofBits 0x7FEFFFFFFFFFFFFF)
      = Float64.ofBits 0x7FF0000000000000 := by decide

/-- The comparison `-0.0 == 0.0` holds. -/
theorem float64_negZero_eq_zero :
    Float64.eq (Float64.ofBits 0x8000000000000000) Float64.zero = true := by decide

/-- The comparison `NaN != 0.0` holds. -/
theorem float64_nan_ne_zero : Float64.ne Float64.nan Float64.zero = true := by decide

/-! ## The resolver: one theorem per rule of the decision table

In the statements below "price = 0" and "price ≠ 0" are the Go comparisons
`== 0.0` and `!= 0.0` of the source (`Float64.eq`, `Float64.ne`): both zeros
compare equal to `0.0`. Equalities between resolved fields and record fields
are equalities of bit patterns. -/

/-- C1. A record in state "POST" whose post-market price is not zero resolves
to the post-market price, to the sums post-market change + regular change and
post-market change-percent + regular change-percent, active, not in the
regular trading session. -/
theorem transformResponseQuote_post_traded (r : ResponseQuote)
    (hs : r.MarketState = "POST")
    (hp : Float64.ne r.PostMarketPrice Float64.zero = true) :
    (transformResponseQuote r).Price = r.PostMarketPrice ∧
    (transformResponseQuote r).Change
      = Float64.add r.PostMarketChange r.RegularMarketChange ∧
    (transformResponseQuote r).ChangePercent
      = Float64.add r.PostMarketChangePercent r.RegularMarketChangePercent ∧
    (transformResponseQuote r).IsActive = true ∧
    (transformResponseQuote r).IsRegularTradingSession = false := by
  have hp0 : Float64.eq r.PostMarketPrice Float64.zero = false := by
    simpa [Float64.ne] using hp
  simp [transformResponseQuote, hs, hp0]

/-- C1, on the record of the spec's scenario: state POST, post-market price
51.0, post-market change 0.5, regular change 1.0 give price 51.0 and change
1.5 (and change-percent 0.25 + 1.25 = 1.5). -/
theorem transformResponseQuote_post_traded_witness :
    recPostTraded.MarketState = "POST" ∧
    Float64.ne recPostTraded.PostMarketPrice Float64.zero = true ∧
    ((transformResponseQuote recPostTraded).Price = recPostTraded.PostMarketPrice ∧
     (transformResponseQuote recPostTraded).Change
       = Float64.add recPostTraded.PostMarketChange recPostTraded.RegularMarketChange ∧
     (transformResponseQuote recPostTraded).ChangePercent
       = Float64.add recPostTraded.PostMarketChangePercent
           recPostTraded.RegularMarketChangePercent ∧
     (transformResponseQuote recPostTraded).IsActive = true ∧
     (transformResponseQuote recPostTraded).IsRegularTradingSession = false) ∧
    (transformResponseQuote recPostTraded).Price = f51_0 ∧
    (transformResponseQuote recPostTraded).Change = f1_5 ∧
    (transformResponseQuote recPostTraded).ChangePercent = f1_5 :=
  ⟨by decide, by decide,
   transformResponseQuote_post_traded recPostTraded (by decide) (by decide),
   by decide, by decide, by decide⟩

/-- C2. A record in state "REGULAR" resolves to the regular-session price,
change and change-percent, active, in the regular trading session, whatever
its pre-market and post-market fields hold. -/
theorem transformResponseQuote_regular (r : ResponseQuote)
    (hs : r.MarketState = "REGULAR") :
    (transformResponseQuote r).Price = r.RegularMarketPrice ∧
    (transformResponseQuote r).Change = r.RegularMarketChange ∧
    (transformResponseQuote r).ChangePercent = r.RegularMarketChangePercent ∧
    (transformResponseQuote r).IsActive = true ∧
    (transformResponseQuote r).IsRegularTradingSession = true := by
  simp [transformResponseQuote, hs]

/-- C2, on the record of the spec's scenario (state REGULAR, regular price
101.5, regular change 1.2), with pre-market and post-market prices set. -/
theorem transformResponseQuote_regular_witness :
    recRegular.MarketState = "REGULAR" ∧
    Float64.ne recRegular.PreMarketPrice Float64.zero = true ∧
    Float64.ne recRegular.PostMarketPrice Float64.zero = true ∧
    ((transformResponseQuote recRegular).Price = recRegular.RegularMarketPrice ∧
     (transformResponseQuote recRegular).Change = recRegular.RegularMarketChange ∧
     (transformResponseQuote recRegular).ChangePercent
       = recRegular.RegularMarketChangePercent ∧
     (transformResponseQuote recRegular).IsActive = true ∧
     (transformResponseQuote recRegular).IsRegularTradingSession = true) ∧
    (transformResponseQuote recRegular).Price = f101_5 ∧
    (transformResponseQuote recRegular).Change = f1_2 :=
  ⟨by decide, by decide, by decide,
   transformResponseQuote_regular recRegular (by decide), by decide, by decide⟩

/-- C3. A record in state "POST" whose post-market price is zero resolves to
the regular-session price, change and change-percent (the post-market change
fields play no part), active, not in the regular trading session. -/
theorem transformResponseQuote_post_untraded (r : ResponseQuote)
    (hs : r.MarketState = "POST")
    (hp : Float64.eq r.PostMarketPrice Float64.zero = true) :
    (transformResponseQuote r).Price = r.RegularMarketPrice ∧
    (transformResponseQuote r).Change = r.RegularMarketChange ∧
    (transformResponseQuote r).ChangePercent = r.RegularMarketChangePercent ∧
    (transformResponseQuote r).IsActive = true ∧
    (transformResponseQuote r).IsRegularTradingSession = false := by
  simp [transformResponseQuote, hs, hp]

/-- C3, on the record of the spec's scenario (state POST, post-market price 0,
regular price 50.0), with non-zero post-market change fields. -/
theorem transformResponseQuote_post_untraded_witness :
    recPostUntraded.MarketState = "POST" ∧
    Float64.eq recPostUntraded.PostMarketPrice Float64.zero = true ∧
    Float64.ne recPostUntraded.PostMarketChange Float64.zero = true ∧
    Float64.ne recPostUntraded.PostMarketChangePercent Float64.zero = true ∧
    ((transformResponseQuote recPostUntraded).Price = recPostUntraded.RegularMarketPrice ∧
     (transformResponseQuote recPostUntraded).Change
       = recPostUntraded.RegularMarketChange ∧
     (transformResponseQuote recPostUntraded).ChangePercent
       = recPostUntraded.RegularMarketChangePercent ∧
     (transformResponseQuote recPostUntraded).IsActive = true ∧
     (transformResponseQuote recPostUntraded).IsRegularTradingSession = false) ∧
    (transformResponseQuote recPostUntraded).Price = f50_0 ∧
    (transformResponseQuote recPostUntraded).Change = f1_0 :=
  ⟨by decide, by decide, by decide, by decide,
   transformResponseQuote_post_untraded recPostUntraded (by decide) (by decide),
   by decide, by decide⟩

/-- C4. Whatever the market state and the pre-market and post-market fields,
the resolved open, day-high, day-low and previous-close are the record's
regular-session open, day-high, day-low and previous-close. -/
theorem transformResponseQuote_session_fields (r : ResponseQuote) :
    (transformResponseQuote r).PriceOpen = r.RegularMarketOpen ∧
    (transformResponseQuote r).PriceDayHigh = r.RegularMarketDayHigh ∧
    (transformResponseQuote r).PriceDayLow = r.RegularMarketDayLow ∧
    (transformResponseQuote r).PricePrevClose = r.RegularMarketPreviousClose := by
  unfold transformResponseQuote
  split_ifs <;> exact ⟨rfl, rfl, rfl, rfl⟩

/-- C5. A record whose state is none of "REGULAR", "POST", "PRE" and whose
post-market price is zero resolves to the regular-session price, change and
change-percent, not active, not in the regular trading session. -/
theorem transformResponseQuote_other_untraded (r : ResponseQuote)
    (h1 : r.MarketState ≠ "REGULAR") (h2 : r.MarketState ≠ "POST")
    (h3 : r.MarketState ≠ "PRE")
    (hp : Float64.eq r.PostMarketPrice Float64.zero = true) :
    (transformResponseQuote r).Price = r.RegularMarketPrice ∧
    (transformResponseQuote r).Change = r.RegularMarketChange ∧
    (transformResponseQuote r).ChangePercent = r.RegularMarketChangePercent ∧
    (transformResponseQuote r).IsActive = false ∧
    (transformResponseQuote r).IsRegularTradingSession = false := by
  simp [transformResponseQuote, h1, h2, h3, hp, Float64.ne]

/-- C5, on the record of the spec's scenario (state CLOSED, post-market price
0, regular price 49.0). -/
theorem transformResponseQuote_other_untraded_witness :
    recClosed.MarketState ≠ "REGULAR" ∧ recClosed.MarketState ≠ "POST" ∧
    recClosed.MarketState ≠ "PRE" ∧
    Float64.eq recClosed.PostMarketPrice Float64.zero = true ∧
    ((transformResponseQuote recClosed).Price = recClosed.RegularMarketPrice ∧
     (transformResponseQuote recClosed).Change = recClosed.RegularMarketChange ∧
     (transformResponseQuote recClosed).ChangePercent
       = recClosed.RegularMarketChangePercent ∧
     (transformResponseQuote recClosed).IsActive = false ∧
     (transformResponseQuote recClosed).IsRegularTradingSession = false) ∧
    (transformResponseQuote recClosed).Price = f49_0 :=
  ⟨by decide, by decide, by decide, by decide,
   transformResponseQuote_other_untraded recClosed (by decide) (by decide) (by decide)
     (by decide),
   by decide⟩

/-- C6. A record whose state is none of "REGULAR", "POST", "PRE" and whose
post-market price is not zero resolves to the post-market price, to the sums
post-market change + regular change and post-market change-percent + regular
change-percent, not active, not in the regular trading session. -/
theorem transformResponseQuote_other_traded (r : ResponseQuote)
    (h1 : r.MarketState ≠ "REGULAR") (h2 : r.MarketState ≠ "POST")
    (h3 : r.MarketState ≠ "PRE")
    (hp : Float64.ne r.PostMarketPrice Float64.zero = true) :
    (transformResponseQuote r).Price = r.PostMarketPrice ∧
    (transformResponseQuote r).Change
      = Float64.add r.PostMarketChange r.RegularMarketChange ∧
    (transformResponseQuote r).ChangePercent
      = Float64.add r.PostMarketChangePercent r.RegularMarketChangePercent ∧
    (transformResponseQuote r).IsActive = false ∧
    (transformResponseQuote r).IsRegularTradingSession = false := by
  simp [transformResponseQuote, h1, h2, h3, hp]

/-- C6, on a CLOSED record with post-market price 52.25, post-market change
0.5 and regular change 2.0: price 52.25, change 2.5, change-percent
0.25 + 1.25 = 1.5. -/
theorem transformResponseQuote_other_traded_witness :
    recClosedTraded.MarketState ≠ "REGULAR" ∧ recClosedTraded.MarketState ≠ "POST" ∧
    recClosedTraded.MarketState ≠ "PRE" ∧
    Float64.ne recClosedTraded.PostMarketPrice Float64.zero = true ∧
    ((transformResponseQuote recClosedTraded).Price = recClosedTraded.PostMarketPrice ∧
     (transformResponseQuote recClosedTraded).Change
       = Float64.add recClosedTraded.PostMarketChange
           recClosedTraded.RegularMarketChange ∧
     (transformResponseQuote recClosedTraded).ChangePercent
       = Float64.add recClosedTraded.PostMarketChangePercent
           recClosedTraded.RegularMarketChangePercent ∧
     (transformResponseQuote recClosedTraded).IsActive = false ∧
     (transformResponseQuote recClosedTraded).IsRegularTradingSession = false) ∧
    (transformResponseQuote recClosedTraded).Price = f52_25 ∧
    (transformResponseQuote recClosedTraded).Change = f2_5 ∧
    (transformResponseQuote recClosedTraded).ChangePercent = f1_5 :=
  ⟨by decide, by decide, by decide, by decide,
   transformResponseQuote_other_traded recClosedTraded (by decide) (by decide)
     (by decide) (by decide),
   by decide, by decide, by decide⟩

/-- C7. A record in state "PRE" whose pre-market price is zero resolves to the
regular-session price, change and change-percent (the pre-market change fields
and the post-market price play no part), not active, not in the regular
trading session. -/
theorem transformResponseQuote_pre_untraded (r : ResponseQuote)
    (hs : r.MarketState = "PRE")
    (hp : Float64.eq r.PreMarketPrice Float64.zero = true) :
    (transformResponseQuote r).Price = r.RegularMarketPrice ∧
    (transformResponseQuote r).Change = r.RegularMarketChange ∧
    (transformResponseQuote r).ChangePercent = r.RegularMarketChangePercent ∧
    (transformResponseQuote r).IsActive = false ∧
    (transformResponseQuote r).IsRegularTradingSession = false := by
  simp [transformResponseQuote, hs, hp]

/-- C7, on a PRE record with pre-market price 0, non-zero pre-market change
fields and post-market price 51.0: price 48.0 and change 1.0, the regular
ones. -/
theorem transformResponseQuote_pre_untraded_witness :
    recPreUntraded.MarketState = "PRE" ∧
    Float64.eq recPreUntraded.PreMarketPrice Float64.zero = true ∧
    Float64.ne recPreUntraded.PreMarketChange Float64.zero = true ∧
    Float64.ne recPreUntraded.PreMarketChangePercent Float64.zero = true ∧
    Float64.ne recPreUntraded.PostMarketPrice Float64.zero = true ∧
    ((transformResponseQuote recPreUntraded).Price = recPreUntraded.RegularMarketPrice ∧
     (transformResponseQuote recPreUntraded).Change = recPreUntraded.RegularMarketChange ∧
     (transformResponseQuote recPreUntraded).ChangePercent
       = recPreUntraded.RegularMarketChangePercent ∧
     (transformResponseQuote recPreUntraded).IsActive = false ∧
     (transformResponseQuote recPreUntraded).IsRegularTradingSession = false) ∧
    (transformResponseQuote recPreUntraded).Price = f48_0 ∧
    (transformResponseQuote recPreUntraded).Change = f1_0 ∧
    (transformResponseQuote recPreUntraded).ChangePercent = f2_0 :=
  ⟨by decide, by decide, by decide, by decide, by decide,
   transformResponseQuote_pre_untraded recPreUntraded (by decide) (by decide),
   by decide, by decide, by decide⟩

/-- C8. A record in state "PRE" whose pre-market price is not zero resolves to
the pre-market price, the pre-market change and the pre-market change-percent
alone (nothing is added to them), active, not in the regular trading session. -/
theorem transformResponseQuote_pre_traded (r : ResponseQuote)
    (hs : r.MarketState = "PRE")
    (hp : Float64.ne r.PreMarketPrice Float64.zero = true) :
    (transformResponseQuote r).Price = r.PreMarketPrice ∧
    (transformResponseQuote r).Change = r.PreMarketChange ∧
    (transformResponseQuote r).ChangePercent = r.PreMarketChangePercent ∧
    (transformResponseQuote r).IsActive = true ∧
    (transformResponseQuote r).IsRegularTradingSession = false := by
  have hp0 : Float64.eq r.PreMarketPrice Float64.zero = false := by
    simpa [Float64.ne] using hp
  simp [transformResponseQuote, hs, hp0]

/-- C8, on a PRE record with pre-market price 47.5, pre-market change 0.5 and
regular change 1.0: price 47.5 and change 0.5, not 1.5. -/
theorem transformResponseQuote_pre_traded_witness :
    recPreTraded.MarketState = "PRE" ∧
    Float64.ne recPreTraded.PreMarketPrice Float64.zero = true ∧
    ((transformResponseQuote recPreTraded).Price = recPreTraded.PreMarketPrice ∧
     (transformResponseQuote recPreTraded).Change = recPreTraded.PreMarketChange ∧
     (transformResponseQuote recPreTraded).ChangePercent
       = recPreTraded.PreMarketChangePercent ∧
     (transformResponseQuote recPreTraded).IsActive = true ∧
     (transformResponseQuote recPreTraded).IsRegularTradingSession = false) ∧
    (transformResponseQuote recPreTraded).Price = f47_5 ∧
    (transformResponseQuote recPreTraded).Change = f0_5 ∧
    (transformResponseQuote recPreTraded).Change
      ≠ Float64.add recPreTraded.PreMarketChange recPreTraded.RegularMarketChange :=
  ⟨by decide, by decide,
   transformResponseQuote_pre_traded recPreTraded (by decide) (by decide),
   by decide, by decide, by decide⟩

/-! ## The fetcher and the collector -/

/-- A loop that appends `f x` for every `x` builds `init ++ map f`. -/
theorem foldl_append_singleton {α β : Type} (f : α → β) (l : List α) (init : List β) :
    l.foldl (fun acc x => acc ++ [f x]) init = init ++ l.map f := by
  induction l generalizing init with
  | nil => simp
  | cons x xs ih => simp [ih]

/-- The loop of `transformResponseQuotes` is the map of the resolver. -/
theorem transformResponseQuotes_eq_map (rs : List ResponseQuote) :
    transformResponseQuotes rs = rs.map transformResponseQuote := by
  simp [transformResponseQuotes, foldl_append_singleton]

/-- The counting loop keeps the non-empty symbols, in order. -/
theorem countStep_foldl_stocks (env : Env) (c : List String) (st : List String × World) :
    (c.foldl (Collect.countStep env) st).1 = st.1 ++ c.filter (fun s => s ≠ "") := by
  induction c generalizing st with
  | nil => simp
  | cons s ss ih =>
    by_cases hs : s = ""
    · simp [ih, Collect.countStep, hs]
    · simp [ih, Collect.countStep, hs]

/-- The counting loop sends nothing on the channel. -/
theorem countStep_foldl_ch (env : Env) (c : List String) (st : List String × World) :
    (c.foldl (Collect.countStep env) st).2.ch = st.2.ch := by
  induction c generalizing st with
  | nil => simp
  | cons s ss ih =>
    by_cases hs : s = ""
    · simp [ih, Collect.countStep, hs]
    · cases hv : env.verbose <;> simp [ih, Collect.countStep, hs, hv]

/-- The emitting loop sends the samples of the quotes, quote after quote. -/
theorem emitStep_foldl_ch (qs : List Quote) (w : World) :
    (qs.foldl Collect.emitStep w).ch = w.ch ++ qs.flatMap Collect.samples := by
  induction qs generalizing w with
  | nil => simp
  | cons q rest ih => simp [ih, Collect.emitStep]

/-- The samples sent by a `Collect` call whose fetch got a response: those of
the resolved records of the envelope, record after record. -/
theorem Collect_ch_of_response (env : Env) (c : collector) (w : World)
    (err : Bool) (result : Response)
    (h : env.get (quoteURL (String.intercalate "," (c.filter (fun s => s ≠ ""))))
      = GetOutcome.response err result) :
    (Collect env c w).2.ch
      = w.ch ++ (result.QuoteResponse.Quotes.map transformResponseQuote).flatMap
          Collect.samples := by
  have hst := countStep_foldl_stocks env c ([], w)
  have hch := countStep_foldl_ch env c ([], w)
  simp only [List.nil_append] at hst
  simp only [Collect, GetQuotes, hst, h]
  simp [emitStep_foldl_ch, hch, transformResponseQuotes_eq_map]

/-- In a list of three-sample blocks, the sample `a` of block `i` sits at
position `3 * i + a`. -/
theorem samples_flatMap_getElem? (qs : List Quote) (pre : List Metric) (i a : Nat)
    (q : Quote) (hq : qs[i]? = some q) (ha : a < 3) :
    (pre ++ qs.flatMap Collect.samples)[pre.length + 3 * i + a]?
      = (Collect.samples q)[a]? := by
  induction qs generalizing pre i with
  | nil => simp at hq
  | cons x xs ih =>
    cases i with
    | zero =>
      simp only [List.getElem?_cons_zero, Option.some.injEq] at hq
      subst hq
      rw [List.flatMap_cons, ← List.append_assoc]
      rw [List.getElem?_append_left (by simp [Collect.samples]; omega)]
      rw [List.getElem?_append_right (by omega)]
      congr 1
      omega
    | succ n =>
      simp only [List.getElem?_cons_succ] at hq
      have := ih (pre ++ Collect.samples x) n hq
      rw [List.flatMap_cons, ← List.append_assoc]
      rw [← this]
      congr 1
      simp [Collect.samples]
      omega

/-- C9, as stated, fails: for the empty symbol list `GetQuotes` does call
`Get`, on the URL whose `symbols` parameter is empty, also when the answer holds
no record; and when the answer holds a record, the returned sequence is not
empty. -/
theorem GetQuotes_empty_symbols_counterexample :
    envNoRecords.get (quoteURL "") = GetOutcome.response false Response.zero ∧
    (GetQuotes envNoRecords [] world0).2.gets
      = ["https://query1.finance.yahoo.com/v7/finance/quote?lang=en-US&region=US&corsDomain=finance.yahoo.com&symbols="] ∧
    (GetQuotes envOneRecord [] world0).1 = some [transformResponseQuote recClosed] ∧
    ¬ (∀ env : Env, (GetQuotes env [] world0).2.gets = world0.gets ∧
        (GetQuotes env [] world0).1 = some []) := by
  refine ⟨by decide, by decide, by decide, ?_⟩
  intro h
  have h1 := (h envNoRecords).1
  revert h1
  decide

/-- C9, amended. For the empty symbol list `GetQuotes` calls `Get` exactly once,
on the quote URL with an empty `symbols` parameter; when the client hands back
a response, the returned sequence is the resolver mapped over the records of
its envelope, so it is empty when the envelope holds no record. -/
theorem GetQuotes_empty_symbols (env : Env) (w : World) (err : Bool) (result : Response)
    (h : env.get (quoteURL "") = GetOutcome.response err result) :
    (GetQuotes env [] w).2.gets = w.gets ++ [quoteURL ""] ∧
    (GetQuotes env [] w).1 = some (result.QuoteResponse.Quotes.map transformResponseQuote) ∧
    (result.QuoteResponse.Quotes = [] → (GetQuotes env [] w).1 = some []) := by
  have hj : String.intercalate "," [] = "" := rfl
  refine ⟨?_, ?_, ?_⟩
  · simp only [GetQuotes, hj]
    cases env.get (quoteURL "") <;> rfl
  · simp only [GetQuotes, hj, h, transformResponseQuotes_eq_map]
  · intro hq
    simp only [GetQuotes, hj, h, transformResponseQuotes_eq_map, hq, List.map_nil]

/-- C9 amended, on an upstream answering with no record: one call, empty
result. -/
theorem GetQuotes_empty_symbols_witness :
    envNoRecords.get (quoteURL "") = GetOutcome.response false Response.zero ∧
    (GetQuotes envNoRecords [] world0).2.gets = world0.gets ++ [quoteURL ""] ∧
    (GetQuotes envNoRecords [] world0).1
      = some (Response.zero.QuoteResponse.Quotes.map transformResponseQuote) ∧
    (GetQuotes envNoRecords [] world0).1 = some [] :=
  have h := GetQuotes_empty_symbols envNoRecords world0 false Response.zero (by decide)
  ⟨by decide, h.1, h.2.1, h.2.2 (by decide)⟩

/-- C10, as stated, fails: requested "AAA" then "BBB", with an upstream that
lists the record of "BBB" first, `Collect` sends the three samples of "BBB"
before the three samples of "AAA". -/
theorem Collect_symbol_order_counterexample :
    ((Collect envSwapped ["AAA", "BBB"] world0).2.ch.map
        (fun m => m.labelValues.head?))
      = [some "BBB", some "BBB", some "BBB", some "AAA", some "AAA", some "AAA"] ∧
    ¬ EmittedInSymbolOrder ["AAA", "BBB"] (Collect envSwapped ["AAA", "BBB"] world0).2.ch := by
  refine ⟨by decide, ?_⟩
  intro h
  have h30 := h 0 1 3 0
    { desc := { fqName := "yquotes_last_price_dollars", help := "Last price paid."
                variableLabels := ["symbol", "name", "active"] }
      valueType := ValueType.GaugeValue, value := f51_0
      labelValues := ["AAA", "Aaa Inc.", "true"] }
    { desc := { fqName := "yquotes_last_price_dollars", help := "Last price paid."
                variableLabels := ["symbol", "name", "active"] }
      valueType := ValueType.GaugeValue, value := f101_5
      labelValues := ["BBB", "Bbb Inc.", "true"] }
    (by decide) (by decide) (by decide) (by decide) (by decide) (by decide)
  exact absurd h30 (by decide)

/-- C10, amended. Within one `Collect` call whose fetch got a response, the
samples are sent in the order of the records of that response: the sample `a`
of the `i`-th record is the `(3 * i + a)`-th sample sent by the call, so the
samples of the `i`-th record come before those of the `j`-th whenever `i < j`. -/
theorem Collect_emits_in_record_order (env : Env) (c : collector) (w : World)
    (err : Bool) (result : Response)
    (h : env.get (quoteURL (String.intercalate "," (c.filter (fun s => s ≠ ""))))
      = GetOutcome.response err result)
    (i j : Nat) (ri rj : ResponseQuote) (hij : i < j)
    (hi : result.QuoteResponse.Quotes[i]? = some ri)
    (hj : result.QuoteResponse.Quotes[j]? = some rj)
    (a b : Nat) (ha : a < 3) (hb : b < 3) :
    (Collect env c w).2.ch[w.ch.length + 3 * i + a]?
      = (Collect.samples (transformResponseQuote ri))[a]? ∧
    (Collect env c w).2.ch[w.ch.length + 3 * j + b]?
      = (Collect.samples (transformResponseQuote rj))[b]? ∧
    w.ch.length + 3 * i + a < w.ch.length + 3 * j + b := by
  rw [Collect_ch_of_response env c w err result h]
  refine ⟨?_, ?_, by omega⟩
  · exact samples_flatMap_getElem? _ w.ch i a _ (by simp [hi]) ha
  · exact samples_flatMap_getElem? _ w.ch j b _ (by simp [hj]) hb

/-- C10 amended, on the request "AAA", "BBB" answered with the record of "BBB"
first: the previous-close sample of "BBB" is sent at position 2, the last-price
sample of "AAA" at position 3. -/
theorem Collect_emits_in_record_order_witness :
    (Collect envSwapped ["AAA", "BBB"] world0).2.ch[world0.ch.length + 3 * 0 + 2]?
      = (Collect.samples (transformResponseQuote recRegular))[2]? ∧
    (Collect envSwapped ["AAA", "BBB"] world0).2.ch[world0.ch.length + 3 * 1 + 0]?
      = (Collect.samples (transformResponseQuote recPostTraded))[0]? ∧
    world0.ch.length + 3 * 0 + 2 < world0.ch.length + 3 * 1 + 0 :=
  Collect_emits_in_record_order envSwapped ["AAA", "BBB"] world0 false
    { QuoteResponse := { Quotes := [recRegular, recPostTraded], Error := none } }
    (by decide) 0 1 recRegular recPostTraded (by decide) (by decide) (by decide)
    2 0 (by decide) (by decide)

/-! ## The resolver: properties across the rules -/

/-- The resolved quote embeds the record it was resolved from. -/
theorem transformResponseQuote_record (r : ResponseQuote) :
    (transformResponseQuote r).ResponseQuote = r := by
  unfold transformResponseQuote
  split_ifs <;> rfl

/-- The resolved symbol and name are the record's symbol and short name. -/
theorem transformResponseQuote_labels (r : ResponseQuote) :
    (transformResponseQuote r).Symbol = r.Symbol ∧
    (transformResponseQuote r).Name = r.ShortName := by
  unfold transformResponseQuote
  split_ifs <;> exact ⟨rfl, rfl⟩

/-- The resolved open and previous close are the regular-session ones. -/
theorem transformResponseQuote_open_prevClose (r : ResponseQuote) :
    (transformResponseQuote r).PriceOpen = r.RegularMarketOpen ∧
    (transformResponseQuote r).PricePrevClose = r.RegularMarketPreviousClose := by
  unfold transformResponseQuote
  split_ifs <;> exact ⟨rfl, rfl⟩

/-- The `i`-th entry of a mapped list. -/
theorem map_getElem?_append_cons {α β : Type} (f : α → β) (xs ys : List α) (x : α) :
    ((xs ++ x :: ys).map f)[xs.length]? = some (f x) := by
  rw [List.map_append, List.getElem?_append_right (by simp)]
  simp

/-- C11. The result of `transformResponseQuotes` has the length of its input,
its `i`-th element is the resolver applied to the `i`-th record, for every
index `i`, and the empty list gives the empty list: it is the order-preserving
map of the resolver. -/
theorem transformResponseQuotes_pointwise (rs : List ResponseQuote) :
    (transformResponseQuotes rs).length = rs.length ∧
    (∀ i : Nat, (transformResponseQuotes rs)[i]? = (rs[i]?).map transformResponseQuote) ∧
    transformResponseQuotes rs = rs.map transformResponseQuote ∧
    transformResponseQuotes [] = [] := by
  refine ⟨?_, ?_, transformResponseQuotes_eq_map rs, rfl⟩
  · simp [transformResponseQuotes_eq_map]
  · intro i
    simp [transformResponseQuotes_eq_map]

/-- C14. Every resolved quote has `IsVariablePrecision = false` and
`CurrencyConverted = "USD"`; changing only the `Currency` of a record changes
neither `CurrencyConverted` nor the resolved price, change, change-percent and
flags. -/
theorem transformResponseQuote_currency (r : ResponseQuote) :
    (transformResponseQuote r).IsVariablePrecision = false ∧
    (transformResponseQuote r).CurrencyConverted = "USD" ∧
    (∀ currency : String,
      (transformResponseQuote { r with Currency := currency }).CurrencyConverted
        = (transformResponseQuote r).CurrencyConverted ∧
      (transformResponseQuote { r with Currency := currency }).Price
        = (transformResponseQuote r).Price ∧
      (transformResponseQuote { r with Currency := currency }).Change
        = (transformResponseQuote r).Change ∧
      (transformResponseQuote { r with Currency := currency }).ChangePercent
        = (transformResponseQuote r).ChangePercent ∧
      (transformResponseQuote { r with Currency := currency }).IsActive
        = (transformResponseQuote r).IsActive ∧
      (transformResponseQuote { r with Currency := currency }).IsRegularTradingSession
        = (transformResponseQuote r).IsRegularTradingSession ∧
      (transformResponseQuote { r with Currency := currency }).IsVariablePrecision
        = (transformResponseQuote r).IsVariablePrecision) := by
  refine ⟨?_, ?_, ?_⟩
  · unfold transformResponseQuote
    split_ifs <;> rfl
  · unfold transformResponseQuote
    split_ifs <;> rfl
  · intro currency
    unfold transformResponseQuote
    simp only
    split_ifs <;> exact ⟨rfl, rfl, rfl, rfl, rfl, rfl, rfl⟩

/-- C15. The resolver is a pure function of its record. The quote embeds the
record unchanged; equal records give equal quotes, field by field; and in the
loop of `transformResponseQuotes`, whatever was resolved before, between and
after, two calls on the same record give the same quote, the resolver's value
on that record. -/
theorem transformResponseQuote_pure (r : ResponseQuote) :
    (transformResponseQuote r).ResponseQuote = r ∧
    (∀ r2 : ResponseQuote, r2 = r → transformResponseQuote r2 = transformResponseQuote r) ∧
    (∀ xs ys zs : List ResponseQuote,
      (transformResponseQuotes (xs ++ r :: (ys ++ r :: zs)))[xs.length]?
        = some (transformResponseQuote r) ∧
      (transformResponseQuotes (xs ++ r :: (ys ++ r :: zs)))[xs.length + 1 + ys.length]?
        = some (transformResponseQuote r)) := by
  refine ⟨transformResponseQuote_record r, ?_, ?_⟩
  · intro r2 h
    rw [h]
  · intro xs ys zs
    rw [transformResponseQuotes_eq_map]
    refine ⟨map_getElem?_append_cons _ xs _ r, ?_⟩
    have h := map_getElem?_append_cons transformResponseQuote (xs ++ r :: ys) zs r
    have hl : (xs ++ r :: ys).length = xs.length + 1 + ys.length := by
      simp only [List.length_append, List.length_cons]
      omega
    have he : (xs ++ r :: ys) ++ r :: zs = xs ++ r :: (ys ++ r :: zs) := by simp
    rw [hl, he] at h
    exact h

/-- C15, on two equal records and on the list `recClosed, recRegular, recPreTraded,
recRegular`: the second and the fourth quote are both the quote of
`recRegular`. -/
theorem transformResponseQuote_pure_witness :
    (transformResponseQuote recRegular).ResponseQuote = recRegular ∧
    transformResponseQuote { recRegular with Symbol := "BBB" }
      = transformResponseQuote recRegular ∧
    (transformResponseQuotes [recClosed, recRegular, recPreTraded, recRegular])[1]?
      = some (transformResponseQuote recRegular) ∧
    (transformResponseQuotes [recClosed, recRegular, recPreTraded, recRegular])[3]?
      = some (transformResponseQuote recRegular) :=
  have h := transformResponseQuote_pure recRegular
  ⟨h.1, h.2.1 _ (by decide), (h.2.2 [recClosed] [recPreTraded] []).1,
   (h.2.2 [recClosed] [recPreTraded] []).2⟩

/-- C18. A resolved quote is active exactly when the state is "REGULAR", or
"POST", or "PRE" with a pre-market price that is not zero; so a "POST" record
whose post-market price is zero is active, and a "PRE" record whose pre-market
price is zero is not. -/
theorem transformResponseQuote_isActive_iff (r : ResponseQuote) :
    ((transformResponseQuote r).IsActive = true ↔
      r.MarketState = "REGULAR" ∨ r.MarketState = "POST" ∨
        (r.MarketState = "PRE" ∧ Float64.ne r.PreMarketPrice Float64.zero = true)) ∧
    (r.MarketState = "POST" → Float64.eq r.PostMarketPrice Float64.zero = true →
      (transformResponseQuote r).IsActive = true) ∧
    (r.MarketState = "PRE" → Float64.eq r.PreMarketPrice Float64.zero = true →
      (transformResponseQuote r).IsActive = false) := by
  refine ⟨?_, ?_, ?_⟩
  · by_cases h1 : r.MarketState = "REGULAR"
    · simp [transformResponseQuote, h1]
    · by_cases h2 : r.MarketState = "POST"
      · cases hp : Float64.eq r.PostMarketPrice Float64.zero <;>
          simp [transformResponseQuote, h2, hp]
      · by_cases h3 : r.MarketState = "PRE"
        · cases hp : Float64.eq r.PreMarketPrice Float64.zero <;>
            simp [transformResponseQuote, h3, hp, Float64.ne]
        · cases hp : Float64.ne r.PostMarketPrice Float64.zero <;>
            simp [transformResponseQuote, h1, h2, h3, hp]
  · intro hs hp
    simp [transformResponseQuote, hs, hp]
  · intro hs hp
    simp [transformResponseQuote, hs, hp]

/-- C18, on the record in state POST without a post-market trade (active) and
on the record in state PRE without a pre-market trade (not active). -/
theorem transformResponseQuote_isActive_iff_witness :
    (transformResponseQuote recPostUntraded).IsActive = true ∧
    (transformResponseQuote recPreUntraded).IsActive = false ∧
    ((transformResponseQuote recClosedTraded).IsActive = true ↔
      recClosedTraded.MarketState = "REGULAR" ∨ recClosedTraded.MarketState = "POST" ∨
        (recClosedTraded.MarketState = "PRE" ∧
          Float64.ne recClosedTraded.PreMarketPrice Float64.zero = true)) :=
  ⟨(transformResponseQuote_isActive_iff recPostUntraded).2.1 (by decide) (by decide),
   (transformResponseQuote_isActive_iff recPreUntraded).2.2 (by decide) (by decide),
   (transformResponseQuote_isActive_iff recClosedTraded).1⟩

/-- C19. A resolved quote is in the regular trading session exactly when the
state is the string "REGULAR", letter for letter; and a quote in the regular
trading session is active. -/
theorem transformResponseQuote_isRegular_iff (r : ResponseQuote) :
    ((transformResponseQuote r).IsRegularTradingSession = true ↔
      r.MarketState = "REGULAR") ∧
    ((transformResponseQuote r).IsRegularTradingSession = true →
      (transformResponseQuote r).IsActive = true) := by
  by_cases h1 : r.MarketState = "REGULAR"
  · simp [transformResponseQuote, h1]
  · have h : (transformResponseQuote r).IsRegularTradingSession = false := by
      unfold transformResponseQuote
      simp only [beq_iff_eq, h1, if_false]
      split_ifs <;> rfl
    simp [h, h1]

/-- C19, on the record in state "REGULAR" (regular session, active) and on the
record in state "regular" (not the regular session). -/
theorem transformResponseQuote_isRegular_iff_witness :
    (transformResponseQuote recRegular).IsRegularTradingSession = true ∧
    (transformResponseQuote recRegular).IsActive = true ∧
    recLowercase.MarketState = "regular" ∧
    (transformResponseQuote recLowercase).IsRegularTradingSession = false :=
  ⟨(transformResponseQuote_isRegular_iff recRegular).1.2 (by decide),
   (transformResponseQuote_isRegular_iff recRegular).2
     ((transformResponseQuote_isRegular_iff recRegular).1.2 (by decide)),
   by decide,
   by
     have h := (transformResponseQuote_isRegular_iff recLowercase).1
     cases hb : (transformResponseQuote recLowercase).IsRegularTradingSession
     · rfl
     · exact absurd (h.1 hb) (by decide)⟩

/-- C20. The resolved price is the regular-session price, or the post-market
price and then not zero, or the pre-market price and then not zero. Hence a
record whose regular-session price is not zero resolves to a price that is not
zero, and whenever the resolved change is not the regular-session change (as
bit patterns, or by the Go comparison when the regular change is not NaN) the
resolved price is not zero. -/
theorem transformResponseQuote_price_source (r : ResponseQuote) :
    ((transformResponseQuote r).Price = r.RegularMarketPrice ∨
      ((transformResponseQuote r).Price = r.PostMarketPrice ∧
        Float64.ne r.PostMarketPrice Float64.zero = true) ∨
      ((transformResponseQuote r).Price = r.PreMarketPrice ∧
        Float64.ne r.PreMarketPrice Float64.zero = true)) ∧
    (Float64.ne r.RegularMarketPrice Float64.zero = true →
      Float64.ne (transformResponseQuote r).Price Float64.zero = true) ∧
    ((transformResponseQuote r).Change ≠ r.RegularMarketChange →
      Float64.ne (transformResponseQuote r).Price Float64.zero = true) ∧
    (r.RegularMarketChange.isNaN = false →
      Float64.ne (transformResponseQuote r).Change r.RegularMarketChange = true →
      Float64.ne (transformResponseQuote r).Price Float64.zero = true) := by
  have hself : ∀ x : Float64, x.isNaN = false → Float64.ne x x = false := by
    intro x hx
    simp [Float64.ne, Float64.eq, hx]
  by_cases h1 : r.MarketState = "REGULAR"
  · refine ⟨?_, ?_, ?_, ?_⟩ <;> simp [transformResponseQuote, h1]
    intro hn
    simp [hself _ hn]
  · by_cases h2 : r.MarketState = "POST"
    · cases hp : Float64.eq r.PostMarketPrice Float64.zero
      · refine ⟨?_, ?_, ?_, ?_⟩ <;> simp [transformResponseQuote, h2, hp, Float64.ne]
      · refine ⟨?_, ?_, ?_, ?_⟩ <;> simp [transformResponseQuote, h2, hp]
        intro hn
        simp [hself _ hn]
    · by_cases h3 : r.MarketState = "PRE"
      · cases hp : Float64.eq r.PreMarketPrice Float64.zero
        · refine ⟨?_, ?_, ?_, ?_⟩ <;> simp [transformResponseQuote, h3, hp, Float64.ne]
        · refine ⟨?_, ?_, ?_, ?_⟩ <;> simp [transformResponseQuote, h3, hp]
          intro hn
          simp [hself _ hn]
      · cases hp : Float64.ne r.PostMarketPrice Float64.zero
        · refine ⟨?_, ?_, ?_, ?_⟩ <;> simp [transformResponseQuote, h1, h2, h3, hp]
          intro hn
          simp [hself _ hn]
        · refine ⟨?_, ?_, ?_, ?_⟩ <;> simp [transformResponseQuote, h1, h2, h3, hp]

/-! ## The collector: counters, fetch and samples -/

/-- The counting loop adds to the query counter of a non-empty symbol the
number of its occurrences, and leaves the counter of the empty string alone. -/
theorem countStep_foldl_queryCount (env : Env) (c : List String)
    (st : List String × World) (s : String) :
    (c.foldl (Collect.countStep env) st).2.queryCount s
      = st.2.queryCount s + (if s = "" then 0 else c.count s) := by
  induction c generalizing st with
  | nil => simp
  | cons x xs ih =>
    rw [List.foldl_cons, ih]
    by_cases hx : x = ""
    · subst hx
      by_cases hs : s = ""
      · simp [Collect.countStep, hs]
      · have hne : ("" == s) = false := by
          simpa using fun h : "" = s => hs h.symm
        simp [Collect.countStep, hs, List.count_cons, hne]
    · by_cases hs : s = ""
      · subst hs
        cases hv : env.verbose <;>
          simp [Collect.countStep, hx, hv, incCounter, Ne.symm hx]
      · by_cases hsx : s = x
        · subst hsx
          cases hv : env.verbose <;>
            simp [Collect.countStep, hs, hv, incCounter, List.count_cons]
          all_goals omega
        · have hne : (x == s) = false := by
            simpa using fun h : x = s => hsx h.symm
          cases hv : env.verbose <;>
            simp [Collect.countStep, hx, hs, hv, incCounter, List.count_cons, hsx, hne]

/-- The counting loop touches neither the failure counters nor the list of
requests. -/
theorem countStep_foldl_frame (env : Env) (c : List String) (st : List String × World) :
    (c.foldl (Collect.countStep env) st).2.errorCount = st.2.errorCount ∧
    (c.foldl (Collect.countStep env) st).2.gets = st.2.gets := by
  induction c generalizing st with
  | nil => simp
  | cons s ss ih =>
    by_cases hs : s = ""
    · simp [ih, Collect.countStep, hs]
    · cases hv : env.verbose <;> simp [ih, Collect.countStep, hs, hv]

/-- The emitting loop touches neither the counters nor the list of requests. -/
theorem emitStep_foldl_frame (qs : List Quote) (w : World) :
    (qs.foldl Collect.emitStep w).errorCount = w.errorCount ∧
    (qs.foldl Collect.emitStep w).queryCount = w.queryCount ∧
    (qs.foldl Collect.emitStep w).gets = w.gets := by
  induction qs generalizing w with
  | nil => simp
  | cons q rest ih => simp [ih, Collect.emitStep]

/-- What a `Collect` call leaves in the counters and in the list of requests,
whatever the fetch did. -/
theorem Collect_counters (env : Env) (c : collector) (w : World) :
    (Collect env c w).2.errorCount = w.errorCount ∧
    (∀ s : String, (Collect env c w).2.queryCount s
      = w.queryCount s + (if s = "" then 0 else c.count s)) ∧
    (Collect env c w).2.gets
      = w.gets ++ [quoteURL (String.intercalate "," (c.filter (fun s => s ≠ "")))] := by
  have hst := countStep_foldl_stocks env c ([], w)
  have hfr := countStep_foldl_frame env c ([], w)
  have hqc := countStep_foldl_queryCount env c ([], w)
  simp only [List.nil_append] at hst
  simp only [Collect, GetQuotes, hst]
  cases env.get (quoteURL (String.intercalate "," (c.filter (fun s => s ≠ "")))) with
  | noResponse => exact ⟨hfr.1, hqc, by simp [hfr.2]⟩
  | response err result =>
    refine ⟨?_, ?_, ?_⟩
    · simp [(emitStep_foldl_frame _ _).1, hfr.1]
    · intro s
      simp [(emitStep_foldl_frame _ _).2.1, hqc s]
    · simp [(emitStep_foldl_frame _ _).2.2, hfr.2]

/-- The samples of a resolved record are the samples the spec describes. -/
theorem samples_transformResponseQuote (r : ResponseQuote) :
    Collect.samples (transformResponseQuote r) = recordSamples r := by
  have hl := transformResponseQuote_labels r
  have ho := transformResponseQuote_open_prevClose r
  simp only [Collect.samples, recordSamples, Collect.lvs, Collect.ls, hl.1, hl.2, ho.1, ho.2]

/-- A list of three-sample blocks has three times as many samples as blocks. -/
theorem recordSamples_flatMap_length (rs : List ResponseQuote) :
    (rs.flatMap recordSamples).length = 3 * rs.length := by
  induction rs with
  | nil => simp
  | cons r rest ih =>
    simp only [List.flatMap_cons, List.length_append, ih, List.length_cons]
    simp [recordSamples]
    omega

/-- The resolved records' samples, record after record. -/
theorem samples_flatMap_map (rs : List ResponseQuote) :
    (rs.map transformResponseQuote).flatMap Collect.samples = rs.flatMap recordSamples := by
  induction rs with
  | nil => simp
  | cons r rest ih =>
    simp only [List.map_cons, List.flatMap_cons, ih, samples_transformResponseQuote]

/-- C20, on the PRE record with pre-market price 47.5: the regular price 48.0
is not zero and the resolved change 0.5 is not the regular change 1.0, and the
resolved price 47.5 is not zero. -/
theorem transformResponseQuote_price_source_witness :
    Float64.ne recPreTraded.RegularMarketPrice Float64.zero = true ∧
    (transformResponseQuote recPreTraded).Change ≠ recPreTraded.RegularMarketChange ∧
    (transformResponseQuote recPreTraded).Price = f47_5 ∧
    Float64.ne (transformResponseQuote recPreTraded).Price Float64.zero = true ∧
    Float64.ne (transformResponseQuote recPreTraded).Price Float64.zero = true :=
  ⟨by decide, by decide, by decide,
   (transformResponseQuote_price_source recPreTraded).2.1 (by decide),
   (transformResponseQuote_price_source recPreTraded).2.2.1 (by decide)⟩

/-- C12. When the fetch gets a response with the records `rs`, `Collect` sends
exactly `3 * length rs` samples, however many symbols were requested: for each
record in order, the gauges `yquotes_last_price_dollars`,
`yquotes_opening_price_dollars`, `yquotes_previous_close_price_dollars`, in
that order, valued with the resolved price, the record's regular-session open
and previous close, each labelled with the record's symbol, short name, and
"true" or "false" according to the resolved `IsActive`. -/
theorem Collect_samples (env : Env) (c : collector) (w : World)
    (err : Bool) (result : Response)
    (h : env.get (quoteURL (String.intercalate "," (c.filter (fun s => s ≠ ""))))
      = GetOutcome.response err result) :
    (Collect env c w).1 = Exit.returned ∧
    (Collect env c w).2.ch = w.ch ++ result.QuoteResponse.Quotes.flatMap recordSamples ∧
    (Collect env c w).2.ch.length = w.ch.length + 3 * result.QuoteResponse.Quotes.length ∧
    (∀ r : ResponseQuote, (recordSamples r).map (fun m => (m.desc.fqName, m.valueType))
      = [("yquotes_last_price_dollars", ValueType.GaugeValue),
         ("yquotes_opening_price_dollars", ValueType.GaugeValue),
         ("yquotes_previous_close_price_dollars", ValueType.GaugeValue)]) := by
  have hch : (Collect env c w).2.ch
      = w.ch ++ result.QuoteResponse.Quotes.flatMap recordSamples := by
    rw [Collect_ch_of_response env c w err result h, samples_flatMap_map]
  refine ⟨?_, hch, ?_, fun r => rfl⟩
  · have hst := countStep_foldl_stocks env c ([], w)
    simp only [List.nil_append] at hst
    simp only [Collect, GetQuotes, hst, h]
  · rw [hch, List.length_append, recordSamples_flatMap_length]

/-- C12, on two requests: "AAA", "BBB" answered with two records gives six
samples, the first of them the last price 101.5 of "BBB"; "XXX", "YYY", "ZZZ"
answered with one record gives three samples. -/
theorem Collect_samples_witness :
    (Collect envSwapped ["AAA", "BBB"] world0).2.ch
      = world0.ch ++ [recRegular, recPostTraded].flatMap recordSamples ∧
    (Collect envSwapped ["AAA", "BBB"] world0).2.ch.length = world0.ch.length + 3 * 2 ∧
    (Collect envOneRecord ["XXX", "YYY", "ZZZ"] world0).2.ch.length
      = world0.ch.length + 3 * 1 ∧
    (Collect envSwapped ["AAA", "BBB"] world0).2.ch[0]?
      = some { desc := { fqName := "yquotes_last_price_dollars", help := "Last price paid."
                         variableLabels := ["symbol", "name", "active"] }
               valueType := ValueType.GaugeValue, value := f101_5
               labelValues := ["BBB", "Bbb Inc.", "true"] } :=
  ⟨(Collect_samples envSwapped ["AAA", "BBB"] world0 false
      { QuoteResponse := { Quotes := [recRegular, recPostTraded], Error := none } }
      (by decide)).2.1,
   (Collect_samples envSwapped ["AAA", "BBB"] world0 false
      { QuoteResponse := { Quotes := [recRegular, recPostTraded], Error := none } }
      (by decide)).2.2.1,
   (Collect_samples envOneRecord ["XXX", "YYY", "ZZZ"] world0 false
      { QuoteResponse := { Quotes := [recClosed], Error := none } }
      (by decide)).2.2.1,
   by decide⟩

/-- C13. `Collect` hands to `GetQuotes` the non-empty strings of the requested
list, in their order, duplicates kept (the fetch URL is built from them); it
increments the query counter of every non-empty symbol once per occurrence in
the requested list, and leaves the counter of the empty string alone. -/
theorem Collect_symbols_and_counts (env : Env) (c : collector) (w : World) :
    (c.foldl (Collect.countStep env) ([], w)).1 = c.filter (fun s => s ≠ "") ∧
    (Collect env c w).2.gets
      = w.gets ++ [quoteURL (String.intercalate "," (c.filter (fun s => s ≠ "")))] ∧
    (∀ s : String, s ≠ "" → (Collect env c w).2.queryCount s = w.queryCount s + c.count s) ∧
    (Collect env c w).2.queryCount "" = w.queryCount "" := by
  have hst := countStep_foldl_stocks env c ([], w)
  simp only [List.nil_append] at hst
  have hc := Collect_counters env c w
  refine ⟨hst, hc.2.2, ?_, ?_⟩
  · intro s hs
    simpa [hs] using hc.2.1 s
  · simpa using hc.2.1 ""

/-- C13, on the request "AAA", "", "BBB", "AAA": the fetch gets "AAA", "BBB",
"AAA"; the counter of "AAA" goes up by two, that of "BBB" by one, that of the
empty string stays. -/
theorem Collect_symbols_and_counts_witness :
    (["AAA", "", "BBB", "AAA"].foldl (Collect.countStep envNoRecords) ([], world0)).1
      = ["AAA", "BBB", "AAA"] ∧
    (Collect envNoRecords ["AAA", "", "BBB", "AAA"] world0).2.gets
      = world0.gets ++ [quoteURL "AAA,BBB,AAA"] ∧
    (Collect envNoRecords ["AAA", "", "BBB", "AAA"] world0).2.queryCount "AAA"
      = world0.queryCount "AAA" + 2 ∧
    (Collect envNoRecords ["AAA", "", "BBB", "AAA"] world0).2.queryCount "BBB"
      = world0.queryCount "BBB" + 1 ∧
    (Collect envNoRecords ["AAA", "", "BBB", "AAA"] world0).2.queryCount ""
      = world0.queryCount "" :=
  have h := Collect_symbols_and_counts envNoRecords ["AAA", "", "BBB", "AAA"] world0
  ⟨h.1.trans (by decide), h.2.1.trans (by decide),
   (h.2.2.1 "AAA" (by decide)).trans (by decide),
   (h.2.2.1 "BBB" (by decide)).trans (by decide), h.2.2.2⟩

/-- C16. When the call made for a symbol list fails in transport or in
decoding, so that the client hands back a response whose envelope holds no
record, `GetQuotes` returns the empty sequence and does not panic, and a
`Collect` call fetching that list returns having sent no sample. -/
theorem GetQuotes_failed_fetch (env : Env) (symbols : List String) (w : World)
    (err : Bool) (result : Response)
    (h : env.get (quoteURL (String.intercalate "," symbols)) = GetOutcome.response err result)
    (hq : result.QuoteResponse.Quotes = []) :
    (GetQuotes env symbols w).1 = some [] ∧
    (∀ (c : collector) (w0 : World), c.filter (fun s => s ≠ "") = symbols →
      (Collect env c w0).1 = Exit.returned ∧ (Collect env c w0).2.ch = w0.ch) := by
  refine ⟨?_, ?_⟩
  · simp only [GetQuotes, h, hq]
    rfl
  · intro c w0 hc
    have hst := countStep_foldl_stocks env c ([], w0)
    simp only [List.nil_append] at hst
    have h2 : env.get (quoteURL (String.intercalate "," (c.filter (fun s => s ≠ ""))))
        = GetOutcome.response err result := by rw [hc]; exact h
    refine ⟨?_, ?_⟩
    · simp only [Collect, GetQuotes, hst, h2]
    · rw [Collect_ch_of_response env c w0 err result h2, hq]
      simp

/-- C16, on an upstream whose calls fail in transport: `GetQuotes` on "AAA",
"BBB" returns the empty sequence, and `Collect` on "AAA", "", "BBB" returns
having sent nothing. -/
theorem GetQuotes_failed_fetch_witness :
    envTransportFailure.get (quoteURL (String.intercalate "," ["AAA", "BBB"]))
      = GetOutcome.response true Response.zero ∧
    (GetQuotes envTransportFailure ["AAA", "BBB"] world0).1 = some [] ∧
    (Collect envTransportFailure ["AAA", "", "BBB"] world0).1 = Exit.returned ∧
    (Collect envTransportFailure ["AAA", "", "BBB"] world0).2.ch = world0.ch :=
  have h := GetQuotes_failed_fetch envTransportFailure ["AAA", "BBB"] world0 true
    Response.zero (by decide) (by decide)
  ⟨by decide, h.1, (h.2 ["AAA", "", "BBB"] world0 (by decide)).1,
   (h.2 ["AAA", "", "BBB"] world0 (by decide)).2⟩

/-- C17. Whatever the requested symbols and whatever the fetch does (records,
no record, a failure, a panic), `Collect` leaves the failed-queries counter of
every symbol as it was. -/
theorem Collect_errorCount_unchanged (env : Env) (c : collector) (w : World) :
    ∀ s : String, (Collect env c w).2.errorCount s = w.errorCount s := by
  intro s
  rw [(Collect_counters env c w).1]

end YQuotes
